import Mathlib

set_option maxRecDepth 100000

/-!
Verification development for the smtp2go_exporter repository.

The repository is a Prometheus exporter: five collectors (cycle, bounces,
history, spam, unsubscribes) each POST to one endpoint of the smtp2go
statistics API, decode the JSON body into a typed structure and update a
fixed set of gauges.  This file gives a shallow embedding of that code:

* `Json` / `parseJson` model the syntactic layer of Go's `encoding/json`
  (`json.Unmarshal` fails on syntactically invalid input);
* the `decode…` / `jsonUnmarshal…` functions model how `json.Unmarshal`
  fills each Go struct (missing keys give zero values, `null` is a no-op,
  a value of the wrong JSON type is an error, the last duplicate key wins);
* `parseFloatGo` models `strconv.ParseFloat` on decimal input,
  `parseTimeCycle` models `time.Parse` with the fixed layout
  `"2006-01-02 15:04:05-07:00"`;
* `doPostRequest` and the per-collector `Collect` functions are translated
  from `internal/helper.go`, `internal/emailcycle.go`,
  `internal/emailbounces.go`, the spam / unsubs / history collectors and
  the legacy single-collector `ApiCollector` version.

Gauge values are modelled as rationals (the Go code stores `float64`
values obtained from JSON numbers; every claim under study is about exact
field transport, not rounding).  The network and the clock are explicit
inputs: `Collect` receives the transport function
`net : HttpRequest → Except Unit HttpResponse` and, for the cycle family,
the current time `now` in seconds since the Unix epoch.  The per-collector
mutex only serializes scrape calls and is not part of the sequential model.
-/

/-- A parsed JSON document, as produced by the syntax layer of
Go's `encoding/json`. -/
inductive Json where
  | null : Json
  | bool : Bool → Json
  | num : ℚ → Json
  | str : String → Json
  | arr : List Json → Json
  | obj : List (String × Json) → Json

/-- JSON whitespace, as in RFC 8259 (the set Go's scanner skips). -/
def isWs (c : Char) : Bool :=
  c = ' ' || c = '\t' || c = '\n' || c = '\r'

def skipWs : List Char → List Char
  | [] => []
  | c :: cs => if isWs c then skipWs cs else c :: cs

def isDigit (c : Char) : Bool :=
  48 ≤ c.toNat && c.toNat ≤ 57

def digitVal (c : Char) : Nat :=
  c.toNat - 48

/-- Longest digit run at the head of the input. -/
def takeDigits : List Char → List Char × List Char
  | [] => ([], [])
  | c :: cs =>
    if isDigit c then
      let (ds, rest) := takeDigits cs
      (c :: ds, rest)
    else ([], c :: cs)

def digitsToNat (ds : List Char) : Nat :=
  ds.foldl (fun n c => 10 * n + digitVal c) 0

/-- Integer part of a JSON number: `0`, or a nonzero digit followed by
digits (leading zeros are a syntax error in JSON). -/
def parseIntDigits : List Char → Option (List Char × List Char)
  | [] => none
  | '0' :: rest =>
    match rest with
    | c :: _ => if isDigit c then none else some (['0'], rest)
    | [] => some (['0'], [])
  | c :: rest =>
    if isDigit c then
      let (ds, r) := takeDigits rest
      some (c :: ds, r)
    else none

/-- Optional fraction part `.digits` of a JSON number. -/
def parseFrac (cs : List Char) : Option (List Char × List Char) :=
  match cs with
  | '.' :: r =>
    let (ds, rr) := takeDigits r
    if ds.isEmpty then none else some (ds, rr)
  | _ => some ([], cs)

/-- Optional exponent part `e[+-]digits`; returns (negated, exponent, rest). -/
def parseExp (cs : List Char) : Option (Bool × Nat × List Char) :=
  match cs with
  | [] => some (false, 0, [])
  | c :: r =>
    if c = 'e' || c = 'E' then
      let (eneg, r1) := match r with
        | '-' :: rr => (true, rr)
        | '+' :: rr => (false, rr)
        | _ => (false, r)
      let (ds, r2) := takeDigits r1
      if ds.isEmpty then none else some (eneg, digitsToNat ds, r2)
    else some (false, 0, cs)

/-- The rational value of sign, integer digits, fraction digits and
decimal exponent: `± (ids.fds) × 10^(±e)`, written as one exact
fraction. -/
def mkRatNum (neg : Bool) (ids fds : List Char) (eneg : Bool) (e : Nat) : ℚ :=
  let m : ℤ := (digitsToNat (ids ++ fds) : ℤ)
  let m : ℤ := if neg then -m else m
  if eneg then mkRat m (10 ^ (fds.length + e))
  else if fds.length ≤ e then mkRat (m * ((10 ^ (e - fds.length) : ℕ) : ℤ)) 1
  else mkRat m (10 ^ (fds.length - e))

/-- A JSON number per the RFC 8259 grammar Go enforces. -/
def parseNumber (cs : List Char) : Option (ℚ × List Char) := do
  let neg : Bool := match cs with
    | '-' :: _ => true
    | _ => false
  let cs1 := if neg then cs.tail else cs
  let (ids, cs2) ← parseIntDigits cs1
  let (fds, cs3) ← parseFrac cs2
  let (eneg, e, cs4) ← parseExp cs3
  some (mkRatNum neg ids fds eneg e, cs4)

def hexVal (c : Char) : Option Nat :=
  let n := c.toNat
  if 48 ≤ n ∧ n ≤ 57 then some (n - 48)
  else if 97 ≤ n ∧ n ≤ 102 then some (n - 87)
  else if 65 ≤ n ∧ n ≤ 70 then some (n - 55)
  else none

/-- The body of a JSON string after the opening quote, up to the closing
quote.  Escapes follow RFC 8259; a `\uXXXX` escape that is not a Unicode
scalar value decodes to U+FFFD (Go substitutes the replacement character
rather than failing). -/
def parseStringBody : List Char → Option (List Char × List Char)
  | [] => none
  | '"' :: rest => some ([], rest)
  | '\\' :: esc =>
    match esc with
    | 'u' :: a :: b :: c :: d :: rest => do
      let va ← hexVal a
      let vb ← hexVal b
      let vc ← hexVal c
      let vd ← hexVal d
      let code := ((va * 16 + vb) * 16 + vc) * 16 + vd
      let ch := if Nat.isValidChar code then Char.ofNat code else '�'
      let (s, r) ← parseStringBody rest
      some (ch :: s, r)
    | c :: rest =>
      let ch? : Option Char :=
        if c = '"' then some '"'
        else if c = '\\' then some '\\'
        else if c = '/' then some '/'
        else if c = 'b' then some (Char.ofNat 8)
        else if c = 'f' then some (Char.ofNat 12)
        else if c = 'n' then some '\n'
        else if c = 'r' then some '\r'
        else if c = 't' then some '\t'
        else none
      match ch? with
      | none => none
      | some ch => do
        let (s, r) ← parseStringBody rest
        some (ch :: s, r)
    | [] => none
  | c :: rest =>
    if c.toNat < 32 then none
    else do
      let (s, r) ← parseStringBody rest
      some (c :: s, r)

mutual

/-- One JSON value (fuelled recursive descent; the fuel is an upper bound
on the recursion depth and every recursive call first consumes at least
one character, so `length + 1` fuel always suffices). -/
def parseValue : Nat → List Char → Option (Json × List Char)
  | 0, _ => none
  | Nat.succ fuel, cs =>
    match skipWs cs with
    | 'n' :: 'u' :: 'l' :: 'l' :: rest => some (Json.null, rest)
    | 't' :: 'r' :: 'u' :: 'e' :: rest => some (Json.bool true, rest)
    | 'f' :: 'a' :: 'l' :: 's' :: 'e' :: rest => some (Json.bool false, rest)
    | '"' :: rest => do
      let (s, r) ← parseStringBody rest
      some (Json.str (String.mk s), r)
    | '{' :: rest =>
      match skipWs rest with
      | '}' :: r => some (Json.obj [], r)
      | cs1 => do
        let (ms, r) ← parseMembersNE fuel cs1
        some (Json.obj ms, r)
    | '[' :: rest =>
      match skipWs rest with
      | ']' :: r => some (Json.arr [], r)
      | cs1 => do
        let (es, r) ← parseElementsNE fuel cs1
        some (Json.arr es, r)
    | cs' => do
      let (q, r) ← parseNumber cs'
      some (Json.num q, r)

/-- A nonempty `"key": value` member list, up to and including the
closing brace. -/
def parseMembersNE : Nat → List Char → Option (List (String × Json) × List Char)
  | 0, _ => none
  | Nat.succ fuel, cs =>
    match cs with
    | '"' :: rest => do
      let (k, r1) ← parseStringBody rest
      match skipWs r1 with
      | ':' :: r2 => do
        let (v, r3) ← parseValue fuel r2
        match skipWs r3 with
        | ',' :: r4 => do
          let (ms, r5) ← parseMembersNE fuel (skipWs r4)
          some ((String.mk k, v) :: ms, r5)
        | '}' :: r4 => some ([(String.mk k, v)], r4)
        | _ => none
      | _ => none
    | _ => none

/-- A nonempty element list, up to and including the closing bracket. -/
def parseElementsNE : Nat → List Char → Option (List Json × List Char)
  | 0, _ => none
  | Nat.succ fuel, cs => do
    let (v, r1) ← parseValue fuel cs
    match skipWs r1 with
    | ',' :: r2 => do
      let (es, r3) ← parseElementsNE fuel r2
      some (v :: es, r3)
    | ']' :: r2 => some ([v], r2)
    | _ => none

end

/-- Syntactic JSON parse of a whole document, the failure mode of
`json.Unmarshal` on malformed input: one value, with nothing but
whitespace allowed after it. -/
def parseJson (s : String) : Option Json :=
  let cs := s.toList
  match parseValue (cs.length + 1) cs with
  | none => none
  | some (j, rest) => if (skipWs rest).isEmpty then some j else none

/-- Models `strconv.ParseFloat(s, 64)` on ordinary decimal input:
optional sign, digits with an optional fraction part (at least one digit
overall) and an optional decimal exponent, consuming the whole string.
Go's additional forms (hexadecimal floats and the `inf` / `nan` words)
have no rational value and are outside the model. -/
def parseFloatGo (s : String) : Option ℚ :=
  let cs := s.toList
  let (neg, cs1) := match cs with
    | '-' :: r => (true, r)
    | '+' :: r => (false, r)
    | _ => (false, cs)
  let (ids, cs2) := takeDigits cs1
  let (fds, cs3) := match cs2 with
    | '.' :: r => takeDigits r
    | _ => (([] : List Char), cs2)
  if ids.isEmpty && fds.isEmpty then none
  else
    match parseExp cs3 with
    | none => none
    | some (eneg, e, cs4) =>
      if cs4.isEmpty then some (mkRatNum neg ids fds eneg e) else none

/-- Gregorian leap year, as in Go's `time` package. -/
def isLeapYear (y : ℤ) : Bool :=
  (y % 4 == 0 && y % 100 != 0) || y % 400 == 0

/-- Length of a month, used by `time.Parse` to validate the day. -/
def daysInMonth (y m : ℤ) : ℤ :=
  if m = 2 then (if isLeapYear y then 29 else 28)
  else if m = 4 ∨ m = 6 ∨ m = 9 ∨ m = 11 then 30
  else 31

/-- Days from 0001-01-01 to January 1 of year `y` (proleptic Gregorian,
for the four-digit years `time.Parse` reads here). -/
def daysBeforeYear (y : ℤ) : ℤ :=
  365 * (y - 1) + (y - 1) / 4 - (y - 1) / 100 + (y - 1) / 400

/-- Days from January 1 to the first day of month `m` in year `y`. -/
def daysBeforeMonth (y m : ℤ) : ℤ :=
  let feb : ℤ := if isLeapYear y then 29 else 28
  (if 1 < m then 31 else 0) + (if 2 < m then feb else 0) +
  (if 3 < m then 31 else 0) + (if 4 < m then 30 else 0) +
  (if 5 < m then 31 else 0) + (if 6 < m then 30 else 0) +
  (if 7 < m then 31 else 0) + (if 8 < m then 31 else 0) +
  (if 9 < m then 30 else 0) + (if 10 < m then 31 else 0) +
  (if 11 < m then 30 else 0)

/-- Days between the Unix epoch 1970-01-01 and the civil date `y-m-d`
(719162 days lie between 0001-01-01 and the epoch). -/
def epochDays (y m d : ℤ) : ℤ :=
  daysBeforeYear y + daysBeforeMonth y m + (d - 1) - 719162

/-- Two decimal digits read as a number. -/
def twoDigits? (a b : Char) : Option ℤ :=
  if isDigit a && isDigit b then some ((10 * digitVal a + digitVal b : ℕ) : ℤ) else none

/-- Models `time.Parse("2006-01-02 15:04:05-07:00", s)`, reduced to the
instant it denotes in seconds since the Unix epoch: a fixed-width
`YYYY-MM-DD HH:MM:SS±HH:MM` timestamp whose date and clock components are
range-checked the way Go's parser checks them. -/
def parseTimeCycle (s : String) : Option ℤ :=
  match s.toList with
  | [y1, y2, y3, y4, '-', m1, m2, '-', d1, d2, ' ',
     h1, h2, ':', n1, n2, ':', s1, s2, sg, z1, z2, ':', z3, z4] => do
    let yh ← twoDigits? y1 y2
    let yl ← twoDigits? y3 y4
    let y := 100 * yh + yl
    let m ← twoDigits? m1 m2
    let d ← twoDigits? d1 d2
    let h ← twoDigits? h1 h2
    let mi ← twoDigits? n1 n2
    let se ← twoDigits? s1 s2
    let zh ← twoDigits? z1 z2
    let zm ← twoDigits? z3 z4
    let zsign ← if sg = '+' then some (1 : ℤ) else if sg = '-' then some (-1 : ℤ) else none
    if 1 ≤ m ∧ m ≤ 12 ∧ 1 ≤ d ∧ d ≤ daysInMonth y m ∧ h ≤ 23 ∧ mi ≤ 59 ∧ se ≤ 59 ∧ zm ≤ 59 then
      some (epochDays y m d * 86400 + h * 3600 + mi * 60 + se - zsign * (zh * 3600 + zm * 60))
    else none
  | _ => none

/-- The value of key `k` in a decoded JSON object; with duplicate keys the
last one wins, as in `encoding/json`.  Key matching is exact (the model
leaves out Go's case-insensitive fallback match). -/
def jLookup (kvs : List (String × Json)) (k : String) : Option Json :=
  (kvs.filterMap (fun p => if p.1 = k then some p.2 else none)).getLast?

/-- Decode of a `float64` struct field: a missing key or `null` leaves the
zero value, a JSON number is taken as is, anything else is an
`UnmarshalTypeError`. -/
def decFloatField (kvs : List (String × Json)) (k : String) : Except Unit ℚ :=
  match jLookup kvs k with
  | none => Except.ok 0
  | some Json.null => Except.ok 0
  | some (Json.num q) => Except.ok q
  | some _ => Except.error ()

/-- Decode of a `string` struct field, same missing / null / type rules. -/
def decStrField (kvs : List (String × Json)) (k : String) : Except Unit String :=
  match jLookup kvs k with
  | none => Except.ok ""
  | some Json.null => Except.ok ""
  | some (Json.str s) => Except.ok s
  | some _ => Except.error ()

/-- Decode of an `int` struct field: the JSON number must be an integer. -/
def decIntField (kvs : List (String × Json)) (k : String) : Except Unit ℤ :=
  match jLookup kvs k with
  | none => Except.ok 0
  | some Json.null => Except.ok 0
  | some (Json.num q) => if q.den = 1 then Except.ok q.num else Except.error ()
  | some _ => Except.error ()

/-- Decode of a nested struct field with decoder `dec` and zero value
`zero`: missing or `null` keeps the zero value, an object is decoded,
anything else is a type error. -/
def decObjField {α : Type} (kvs : List (String × Json)) (k : String)
    (dec : List (String × Json) → Except Unit α) (zero : α) : Except Unit α :=
  match jLookup kvs k with
  | none => Except.ok zero
  | some Json.null => Except.ok zero
  | some (Json.obj o) => dec o
  | some _ => Except.error ()

/-- Decode of a slice-of-struct field: missing or `null` keeps the nil
slice, an array decodes elementwise, anything else is a type error. -/
def decArrField {α : Type} (kvs : List (String × Json)) (k : String)
    (dec : Json → Except Unit α) : Except Unit (List α) :=
  match jLookup kvs k with
  | none => Except.ok []
  | some Json.null => Except.ok []
  | some (Json.arr es) => es.mapM dec
  | some _ => Except.error ()

/-- Decode of a whole document into a struct: the document must be an
object (or `null`, a no-op leaving the zero value). -/
def decTop {α : Type} (j : Json)
    (dec : List (String × Json) → Except Unit α) (zero : α) : Except Unit α :=
  match j with
  | Json.obj kvs => dec kvs
  | Json.null => Except.ok zero
  | _ => Except.error ()

/-- `EmailCycleData` of internal/emailcycle.go (also the `MetricsData` of
the legacy single-collector version, whose JSON tags are identical). -/
structure EmailCycleData where
  cycleStart : String
  cycleEnd : String
  cycleUsed : ℚ
  cycleRemaining : ℚ
  cycleMax : ℚ

def zeroCycleData : EmailCycleData := ⟨"", "", 0, 0, 0⟩

structure EmailCycleResponse where
  requestID : String
  data : EmailCycleData

def decodeEmailCycleData (kvs : List (String × Json)) : Except Unit EmailCycleData := do
  let cycleStart ← decStrField kvs "cycle_start"
  let cycleEnd ← decStrField kvs "cycle_end"
  let cycleUsed ← decFloatField kvs "cycle_used"
  let cycleRemaining ← decFloatField kvs "cycle_remaining"
  let cycleMax ← decFloatField kvs "cycle_max"
  Except.ok ⟨cycleStart, cycleEnd, cycleUsed, cycleRemaining, cycleMax⟩

def decodeEmailCycleResponse (kvs : List (String × Json)) : Except Unit EmailCycleResponse := do
  let requestID ← decStrField kvs "request_id"
  let data ← decObjField kvs "data" decodeEmailCycleData zeroCycleData
  Except.ok ⟨requestID, data⟩

/-- `json.Unmarshal(body, &apiResp)` for `EmailCycleResponse`. -/
def jsonUnmarshalCycle (body : String) : Except Unit EmailCycleResponse :=
  match parseJson body with
  | none => Except.error ()
  | some j => decTop j decodeEmailCycleResponse ⟨"", zeroCycleData⟩

/-- `EmailBouncesData` of internal/emailbounces.go. -/
structure EmailBouncesData where
  emails : ℚ
  rejects : ℚ
  softBounces : ℚ
  hardBounces : ℚ
  bouncePercent : String

def zeroBouncesData : EmailBouncesData := ⟨0, 0, 0, 0, ""⟩

structure EmailBouncesResponse where
  requestID : String
  data : EmailBouncesData

def decodeEmailBouncesData (kvs : List (String × Json)) : Except Unit EmailBouncesData := do
  let emails ← decFloatField kvs "emails"
  let rejects ← decFloatField kvs "rejects"
  let softBounces ← decFloatField kvs "softbounces"
  let hardBounces ← decFloatField kvs "hardbounces"
  let bouncePercent ← decStrField kvs "bounce_percent"
  Except.ok ⟨emails, rejects, softBounces, hardBounces, bouncePercent⟩

def decodeEmailBouncesResponse (kvs : List (String × Json)) : Except Unit EmailBouncesResponse := do
  let requestID ← decStrField kvs "request_id"
  let data ← decObjField kvs "data" decodeEmailBouncesData zeroBouncesData
  Except.ok ⟨requestID, data⟩

/-- `json.Unmarshal(body, &apiResp)` for `EmailBouncesResponse`. -/
def jsonUnmarshalBounces (body : String) : Except Unit EmailBouncesResponse :=
  match parseJson body with
  | none => Except.error ()
  | some j => decTop j decodeEmailBouncesResponse ⟨"", zeroBouncesData⟩

/-- `EmailSpamData` of the spam collector. -/
structure EmailSpamData where
  emails : ℚ
  rejects : ℚ
  spams : ℚ
  spamPercent : String

def zeroSpamData : EmailSpamData := ⟨0, 0, 0, ""⟩

structure EmailSpamResponse where
  requestID : String
  data : EmailSpamData

def decodeEmailSpamData (kvs : List (String × Json)) : Except Unit EmailSpamData := do
  let emails ← decFloatField kvs "emails"
  let rejects ← decFloatField kvs "rejects"
  let spams ← decFloatField kvs "spams"
  let spamPercent ← decStrField kvs "spam_percent"
  Except.ok ⟨emails, rejects, spams, spamPercent⟩

def decodeEmailSpamResponse (kvs : List (String × Json)) : Except Unit EmailSpamResponse := do
  let requestID ← decStrField kvs "request_id"
  let data ← decObjField kvs "data" decodeEmailSpamData zeroSpamData
  Except.ok ⟨requestID, data⟩

/-- `json.Unmarshal(body, &apiResp)` for `EmailSpamResponse`. -/
def jsonUnmarshalSpam (body : String) : Except Unit EmailSpamResponse :=
  match parseJson body with
  | none => Except.error ()
  | some j => decTop j decodeEmailSpamResponse ⟨"", zeroSpamData⟩

/-- `EmailUnsubsData` of the unsubscribe collector. -/
structure EmailUnsubsData where
  emails : ℚ
  rejects : ℚ
  unsubscribes : ℚ
  unsubscribePercent : String

def zeroUnsubsData : EmailUnsubsData := ⟨0, 0, 0, ""⟩

structure EmailUnsubsResponse where
  requestID : String
  data : EmailUnsubsData

def decodeEmailUnsubsData (kvs : List (String × Json)) : Except Unit EmailUnsubsData := do
  let emails ← decFloatField kvs "emails"
  let rejects ← decFloatField kvs "rejects"
  let unsubscribes ← decFloatField kvs "unsubscribes"
  let unsubscribePercent ← decStrField kvs "unsubscribe_percent"
  Except.ok ⟨emails, rejects, unsubscribes, unsubscribePercent⟩

def decodeEmailUnsubsResponse (kvs : List (String × Json)) : Except Unit EmailUnsubsResponse := do
  let requestID ← decStrField kvs "request_id"
  let data ← decObjField kvs "data" decodeEmailUnsubsData zeroUnsubsData
  Except.ok ⟨requestID, data⟩

/-- `json.Unmarshal(body, &apiResp)` for `EmailUnsubsResponse`. -/
def jsonUnmarshalUnsubs (body : String) : Except Unit EmailUnsubsResponse :=
  match parseJson body with
  | none => Except.error ()
  | some j => decTop j decodeEmailUnsubsResponse ⟨"", zeroUnsubsData⟩

/-- One record of the history endpoint's `history` list. -/
structure EmailHistoryEntry where
  used : ℚ
  byteCount : ℚ
  avgSize : ℚ
  emailAddress : String
  bounces : ℚ
  clicks : ℚ
  opens : ℚ
  rejects : ℚ
  spam : ℚ
  unsubscribes : ℚ

def zeroHistoryEntry : EmailHistoryEntry := ⟨0, 0, 0, "", 0, 0, 0, 0, 0, 0⟩

structure EmailHistoryData where
  history : List EmailHistoryEntry
  count : ℤ

structure EmailHistoryResponse where
  requestID : String
  data : EmailHistoryData

def decodeEmailHistoryEntryObj (kvs : List (String × Json)) : Except Unit EmailHistoryEntry := do
  let used ← decFloatField kvs "used"
  let byteCount ← decFloatField kvs "bytecount"
  let avgSize ← decFloatField kvs "avgsize"
  let emailAddress ← decStrField kvs "email_address"
  let bounces ← decFloatField kvs "bounces"
  let clicks ← decFloatField kvs "clicks"
  let opens ← decFloatField kvs "opens"
  let rejects ← decFloatField kvs "rejects"
  let spam ← decFloatField kvs "spam"
  let unsubscribes ← decFloatField kvs "unsubscribes"
  Except.ok ⟨used, byteCount, avgSize, emailAddress, bounces, clicks, opens, rejects, spam, unsubscribes⟩

/-- One slice element: `null` leaves a zero entry, an object decodes,
anything else is a type error. -/
def decodeEmailHistoryEntry (j : Json) : Except Unit EmailHistoryEntry :=
  decTop j decodeEmailHistoryEntryObj zeroHistoryEntry

def decodeEmailHistoryData (kvs : List (String × Json)) : Except Unit EmailHistoryData := do
  let history ← decArrField kvs "history" decodeEmailHistoryEntry
  let count ← decIntField kvs "count"
  Except.ok ⟨history, count⟩

def decodeEmailHistoryResponse (kvs : List (String × Json)) : Except Unit EmailHistoryResponse := do
  let requestID ← decStrField kvs "request_id"
  let data ← decObjField kvs "data" decodeEmailHistoryData ⟨[], 0⟩
  Except.ok ⟨requestID, data⟩

/-- `json.Unmarshal(body, &apiResp)` for `EmailHistoryResponse`. -/
def jsonUnmarshalHistory (body : String) : Except Unit EmailHistoryResponse :=
  match parseJson body with
  | none => Except.error ()
  | some j => decTop j decodeEmailHistoryResponse ⟨"", ⟨[], 0⟩⟩

/-- The outbound request `doPostRequest` builds. -/
structure HttpRequest where
  method : String
  url : String
  contentType : String
  body : String

/-- A completed HTTP exchange as seen by the caller of `client.Do`. -/
structure HttpResponse where
  status : Nat
  body : String

def escapeJsonChar (c : Char) : List Char :=
  if c = '"' then ['\\', '"']
  else if c = '\\' then ['\\', '\\']
  else [c]

/-- A JSON string literal for `s` (the quote and backslash escaping
`json.Marshal` applies; its HTML escaping is immaterial to API keys). -/
def jsonEncodeString (s : String) : String :=
  String.mk ('"' :: s.toList.foldr (fun c acc => escapeJsonChar c ++ acc) ['"'])

/-- The request helper.go constructs: POST to `apiURL + endpoint` with the
JSON body holding the API key and a JSON content type. -/
def mkApiRequest (apiURL endpoint apiKey : String) : HttpRequest :=
  { method := "POST"
    url := apiURL ++ endpoint
    contentType := "application/json"
    body := "\x7b\"api_key\":" ++ jsonEncodeString apiKey ++ "\x7d" }

/-- `doPostRequest` of internal/helper.go.  The network is the explicit
transport `net` (one call to `client.Do`; the code has no retry).  The
first component is the returned `(body, error)` pair: the transport error
when the exchange fails, otherwise the full response body whatever the
status code.  The second component is the log stream: the failure line,
plus the raw body when `debug` is set. -/
def doPostRequest (net : HttpRequest → Except Unit HttpResponse)
    (apiURL endpoint apiKey : String) (debug : Bool) (logTag : String) :
    Except Unit String × List String :=
  match net (mkApiRequest apiURL endpoint apiKey) with
  | Except.error e => (Except.error e, ["[" ++ logTag ++ "] HTTP request failed"])
  | Except.ok resp =>
    (Except.ok resp.body,
      if debug then ["[" ++ logTag ++ "] Raw response: " ++ resp.body] else [])

/-- `EmailCycleCollector` of internal/emailcycle.go: configuration plus
the four gauges (a prometheus gauge holds one float, zero at creation).
The `namespace` field is called `ns` (`namespace` is reserved here); the
mutex only serializes `Collect` calls and has no sequential content. -/
structure EmailCycleCollector where
  apiURL : String
  apiKey : String
  debug : Bool
  ns : String
  used : ℚ
  remaining : ℚ
  max : ℚ
  remainingSeconds : ℚ

def NewEmailCycleCollector (apiURL apiKey : String) (debug : Bool) : EmailCycleCollector :=
  { apiURL, apiKey, debug, ns := "smtp2go_email_cycle"
    used := 0, remaining := 0, max := 0, remainingSeconds := 0 }

/-- `EmailCycleCollector.Collect`: fetch, unmarshal, set the three counter
gauges, then parse `cycle_end` and set `remaining_seconds` to
`time.Until(endTime).Seconds()` — the signed difference `endTime - now`,
with no clamp — skipping only that gauge when the timestamp is bad.
Returns the new gauge state and the metrics written to the channel. -/
def EmailCycleCollector.Collect (c : EmailCycleCollector)
    (net : HttpRequest → Except Unit HttpResponse) (now : ℚ) :
    EmailCycleCollector × List (String × ℚ) :=
  match (doPostRequest net c.apiURL "/stats/email_cycle" c.apiKey c.debug "email_cycle").1 with
  | Except.error _ => (c, [])
  | Except.ok body =>
    match jsonUnmarshalCycle body with
    | Except.error _ => (c, [])
    | Except.ok apiResp =>
      let data := apiResp.data
      let c := { c with used := data.cycleUsed, remaining := data.cycleRemaining,
                        max := data.cycleMax }
      let c := match parseTimeCycle data.cycleEnd with
        | none => c
        | some endTime => { c with remainingSeconds := (endTime : ℚ) - now }
      (c, [(c.ns ++ "_used", c.used), (c.ns ++ "_remaining", c.remaining),
           (c.ns ++ "_max", c.max), (c.ns ++ "_remaining_seconds", c.remainingSeconds)])

/-- `EmailBouncesCollector` of internal/emailbounces.go. -/
structure EmailBouncesCollector where
  apiURL : String
  apiKey : String
  debug : Bool
  ns : String
  emails : ℚ
  rejects : ℚ
  softBounces : ℚ
  hardBounces : ℚ
  bouncePercent : ℚ

def NewEmailBouncesCollector (apiURL apiKey : String) (debug : Bool) : EmailBouncesCollector :=
  { apiURL, apiKey, debug, ns := "smtp2go_email_bounces"
    emails := 0, rejects := 0, softBounces := 0, hardBounces := 0, bouncePercent := 0 }

/-- `EmailBouncesCollector.Collect`: fetch, unmarshal, set the four
numeric gauges, then parse `bounce_percent` with `strconv.ParseFloat`,
skipping only that gauge on failure; finally emit all five gauges. -/
def EmailBouncesCollector.Collect (c : EmailBouncesCollector)
    (net : HttpRequest → Except Unit HttpResponse) :
    EmailBouncesCollector × List (String × ℚ) :=
  match (doPostRequest net c.apiURL "/stats/email_bounces" c.apiKey c.debug "email_bounces").1 with
  | Except.error _ => (c, [])
  | Except.ok body =>
    match jsonUnmarshalBounces body with
    | Except.error _ => (c, [])
    | Except.ok apiResp =>
      let data := apiResp.data
      let c := { c with emails := data.emails, rejects := data.rejects,
                        softBounces := data.softBounces, hardBounces := data.hardBounces }
      let c := match parseFloatGo data.bouncePercent with
        | none => c
        | some percent => { c with bouncePercent := percent }
      (c, [(c.ns ++ "_emails", c.emails), (c.ns ++ "_rejects", c.rejects),
           (c.ns ++ "_softbounces", c.softBounces), (c.ns ++ "_hardbounces", c.hardBounces),
           (c.ns ++ "_bounce_percent", c.bouncePercent)])

/-- `EmailSpamCollector`. -/
structure EmailSpamCollector where
  apiURL : String
  apiKey : String
  debug : Bool
  ns : String
  emails : ℚ
  rejects : ℚ
  spams : ℚ
  spamPercent : ℚ

def NewEmailSpamCollector (apiURL apiKey : String) (debug : Bool) : EmailSpamCollector :=
  { apiURL, apiKey, debug, ns := "smtp2go_email_spam"
    emails := 0, rejects := 0, spams := 0, spamPercent := 0 }

/-- `EmailSpamCollector.Collect`, same shape as the bounces collector with
the spam fields. -/
def EmailSpamCollector.Collect (c : EmailSpamCollector)
    (net : HttpRequest → Except Unit HttpResponse) :
    EmailSpamCollector × List (String × ℚ) :=
  match (doPostRequest net c.apiURL "/stats/email_spam" c.apiKey c.debug "email_spam").1 with
  | Except.error _ => (c, [])
  | Except.ok body =>
    match jsonUnmarshalSpam body with
    | Except.error _ => (c, [])
    | Except.ok apiResp =>
      let data := apiResp.data
      let c := { c with emails := data.emails, rejects := data.rejects, spams := data.spams }
      let c := match parseFloatGo data.spamPercent with
        | none => c
        | some percent => { c with spamPercent := percent }
      (c, [(c.ns ++ "_emails", c.emails), (c.ns ++ "_rejects", c.rejects),
           (c.ns ++ "_spams", c.spams), (c.ns ++ "_spam_percent", c.spamPercent)])

/-- `EmailUnsubsCollector`. -/
structure EmailUnsubsCollector where
  apiURL : String
  apiKey : String
  debug : Bool
  ns : String
  emails : ℚ
  rejects : ℚ
  unsubscribes : ℚ
  unsubscribePercent : ℚ

def NewEmailUnsubsCollector (apiURL apiKey : String) (debug : Bool) : EmailUnsubsCollector :=
  { apiURL, apiKey, debug, ns := "smtp2go_email_unsubs"
    emails := 0, rejects := 0, unsubscribes := 0, unsubscribePercent := 0 }

/-- `EmailUnsubsCollector.Collect`, same shape with the unsubscribe
fields. -/
def EmailUnsubsCollector.Collect (c : EmailUnsubsCollector)
    (net : HttpRequest → Except Unit HttpResponse) :
    EmailUnsubsCollector × List (String × ℚ) :=
  match (doPostRequest net c.apiURL "/stats/email_unsubs" c.apiKey c.debug "email_unsubs").1 with
  | Except.error _ => (c, [])
  | Except.ok body =>
    match jsonUnmarshalUnsubs body with
    | Except.error _ => (c, [])
    | Except.ok apiResp =>
      let data := apiResp.data
      let c := { c with emails := data.emails, rejects := data.rejects,
                        unsubscribes := data.unsubscribes }
      let c := match parseFloatGo data.unsubscribePercent with
        | none => c
        | some percent => { c with unsubscribePercent := percent }
      (c, [(c.ns ++ "_emails", c.emails), (c.ns ++ "_rejects", c.rejects),
           (c.ns ++ "_unsubscribes", c.unsubscribes),
           (c.ns ++ "_unsubscribe_percent", c.unsubscribePercent)])

/-- One labeled gauge family (`prometheus.GaugeVec` with the single label
`email_address`) as a finite map from label value to gauge value, in
insertion order. -/
abbrev GaugeVecState : Type := List (String × ℚ)

/-- `vec.With(labels).Set(v)`: update the child for label value `k`, or
create it with value `v`. -/
def setAddr (m : GaugeVecState) (k : String) (v : ℚ) : GaugeVecState :=
  match m with
  | [] => [(k, v)]
  | (k', v') :: rest => if k' = k then (k, v) :: rest else (k', v') :: setAddr rest k v

/-- The label values a family currently exposes. -/
def keys (m : GaugeVecState) : List String := m.map Prod.fst

/-- `EmailHistoryCollector`: the Go code keys its nine `GaugeVec`s by
fixed name in a map; the model holds one field per family. -/
structure EmailHistoryCollector where
  apiURL : String
  apiKey : String
  debug : Bool
  ns : String
  used : GaugeVecState
  bytecount : GaugeVecState
  avgsize : GaugeVecState
  bounces : GaugeVecState
  clicks : GaugeVecState
  opens : GaugeVecState
  rejects : GaugeVecState
  spam : GaugeVecState
  unsubscribes : GaugeVecState

def NewEmailHistoryCollector (apiURL apiKey : String) (debug : Bool) : EmailHistoryCollector :=
  { apiURL, apiKey, debug, ns := "smtp2go_email_history"
    used := [], bytecount := [], avgsize := [], bounces := [], clicks := []
    opens := [], rejects := [], spam := [], unsubscribes := [] }

/-- The body of the per-entry loop: set every family's child for the
entry's email address. -/
def histSetEntry (c : EmailHistoryCollector) (e : EmailHistoryEntry) : EmailHistoryCollector :=
  { c with
    used := setAddr c.used e.emailAddress e.used
    bytecount := setAddr c.bytecount e.emailAddress e.byteCount
    avgsize := setAddr c.avgsize e.emailAddress e.avgSize
    bounces := setAddr c.bounces e.emailAddress e.bounces
    clicks := setAddr c.clicks e.emailAddress e.clicks
    opens := setAddr c.opens e.emailAddress e.opens
    rejects := setAddr c.rejects e.emailAddress e.rejects
    spam := setAddr c.spam e.emailAddress e.spam
    unsubscribes := setAddr c.unsubscribes e.emailAddress e.unsubscribes }

/-- `metric.Reset()` applied to every family, as the code does right
after a successful unmarshal. -/
def histReset (c : EmailHistoryCollector) : EmailHistoryCollector :=
  { c with used := [], bytecount := [], avgsize := [], bounces := [], clicks := []
           opens := [], rejects := [], spam := [], unsubscribes := [] }

/-- The metrics a family emits: one sample per label value. -/
def emitVec (name : String) (m : GaugeVecState) : List (String × String × ℚ) :=
  m.map (fun p => (name, p.1, p.2))

/-- `EmailHistoryCollector.Collect`: fetch, unmarshal, reset every family
to drop outdated labels, re-populate from the response's history list,
then emit every family. -/
def EmailHistoryCollector.Collect (c : EmailHistoryCollector)
    (net : HttpRequest → Except Unit HttpResponse) :
    EmailHistoryCollector × List (String × String × ℚ) :=
  match (doPostRequest net c.apiURL "/stats/email_history" c.apiKey c.debug "email_history").1 with
  | Except.error _ => (c, [])
  | Except.ok body =>
    match jsonUnmarshalHistory body with
    | Except.error _ => (c, [])
    | Except.ok apiResp =>
      let c := histReset c
      let c := apiResp.data.history.foldl histSetEntry c
      (c, emitVec (c.ns ++ "_used") c.used ++ emitVec (c.ns ++ "_bytecount") c.bytecount ++
          emitVec (c.ns ++ "_avgsize") c.avgsize ++ emitVec (c.ns ++ "_bounces") c.bounces ++
          emitVec (c.ns ++ "_clicks") c.clicks ++ emitVec (c.ns ++ "_opens") c.opens ++
          emitVec (c.ns ++ "_rejects") c.rejects ++ emitVec (c.ns ++ "_spam") c.spam ++
          emitVec (c.ns ++ "_unsubscribes") c.unsubscribes)

/-- The legacy single-collector `ApiCollector` (the repository's first
version, kept in the sources): four gauges for the cycle endpoint. -/
structure ApiCollector where
  apiURL : String
  apiKey : String
  debug : Bool
  ns : String
  max : ℚ
  remaining : ℚ
  used : ℚ
  remainingSeconds : ℚ

def NewApiCollector (apiURL apiKey : String) (debug : Bool) (namespc : String) : ApiCollector :=
  { apiURL, apiKey, debug, ns := "smtp2go_" ++ namespc
    max := 0, remaining := 0, used := 0, remainingSeconds := 0 }

/-- `ApiCollector.collectEmailCycleMetrics`: this version clamps
`remaining_seconds` at zero (`if diff < 0 \x7b diff = 0 \x7d`) and, unlike the
current collector, returns without emitting anything when `cycle_end`
fails to parse (the counter gauges have already been set by then). -/
def ApiCollector.collectEmailCycleMetrics (c : ApiCollector)
    (net : HttpRequest → Except Unit HttpResponse) (now : ℚ) :
    ApiCollector × List (String × ℚ) :=
  match net (mkApiRequest c.apiURL "/stats/email_cycle" c.apiKey) with
  | Except.error _ => (c, [])
  | Except.ok resp =>
    match jsonUnmarshalCycle resp.body with
    | Except.error _ => (c, [])
    | Except.ok apiResp =>
      let data := apiResp.data
      let c := { c with max := data.cycleMax, remaining := data.cycleRemaining,
                        used := data.cycleUsed }
      match parseTimeCycle data.cycleEnd with
      | none => (c, [])
      | some endTime =>
        let diff : ℚ := (endTime : ℚ) - now
        let diff := if diff < 0 then 0 else diff
        let c := { c with remainingSeconds := diff }
        (c, [(c.ns ++ "_max", c.max), (c.ns ++ "_remaining", c.remaining),
             (c.ns ++ "_used", c.used), (c.ns ++ "_remaining_seconds", c.remainingSeconds)])

/-- `ApiCollector.Collect` forwards to the cycle routine. -/
def ApiCollector.Collect (c : ApiCollector)
    (net : HttpRequest → Except Unit HttpResponse) (now : ℚ) :
    ApiCollector × List (String × ℚ) :=
  c.collectEmailCycleMetrics net now

/-! Helper lemmas and shared test fixtures. -/

/-- The returned pair of the helper is the transport outcome with the
body projected out. -/
theorem doPostRequest_fst (net : HttpRequest → Except Unit HttpResponse)
    (u e k tag : String) (d : Bool) :
    (doPostRequest net u e k d tag).1 = Except.map HttpResponse.body (net (mkApiRequest u e k)) := by
  unfold doPostRequest
  cases net (mkApiRequest u e k) <;> rfl

/-- A transport that completes every exchange with status 200 and body `b`. -/
def netWith (b : String) : HttpRequest → Except Unit HttpResponse :=
  fun _ => Except.ok ⟨200, b⟩

/-- A transport on which every exchange fails. -/
def netFail : HttpRequest → Except Unit HttpResponse :=
  fun _ => Except.error ()

/-- Claim C8: `doPostRequest` returns an error exactly when the single
`client.Do` call fails (there is no retry: the model consumes one
transport outcome), and on any completed exchange returns the full
response body with a nil error — the status code is never examined. -/
theorem doPostRequest_transport_contract
    (net : HttpRequest → Except Unit HttpResponse) (u e k tag : String) (d : Bool) :
    (∀ err, net (mkApiRequest u e k) = Except.error err →
      (doPostRequest net u e k d tag).1 = Except.error err)
    ∧ (∀ status body, net (mkApiRequest u e k) = Except.ok ⟨status, body⟩ →
      (doPostRequest net u e k d tag).1 = Except.ok body) := by
  constructor
  · intro err h
    rw [doPostRequest_fst, h]
    rfl
  · intro status body h
    rw [doPostRequest_fst, h]
    rfl

/-- Witness for C8: both branches of the contract at concrete transports. -/
theorem doPostRequest_transport_contract_witness :
    (netFail (mkApiRequest "u" "/e" "k") = Except.error ()
      ∧ (doPostRequest netFail "u" "/e" "k" true "t").1 = Except.error ())
    ∧ (netWith "hello" (mkApiRequest "u" "/e" "k") = Except.ok ⟨200, "hello"⟩
      ∧ (doPostRequest (netWith "hello") "u" "/e" "k" true "t").1 = Except.ok "hello") :=
  ⟨⟨rfl, (doPostRequest_transport_contract netFail "u" "/e" "k" "t" true).1 () rfl⟩,
   ⟨rfl, (doPostRequest_transport_contract (netWith "hello") "u" "/e" "k" "t" true).2 200 "hello" rfl⟩⟩

/-- Claim C9: the `(body, error)` pair `doPostRequest` returns is the same
whatever the debug flag; debug only changes the log stream. -/
theorem doPostRequest_debug_independent
    (net : HttpRequest → Except Unit HttpResponse) (u e k tag : String) (d1 d2 : Bool) :
    (doPostRequest net u e k d1 tag).1 = (doPostRequest net u e k d2 tag).1 := by
  rw [doPostRequest_fst, doPostRequest_fst]

/-- Claim C4: whenever the fetch completes but the response body is not
syntactically valid JSON, every collector's `Collect` returns with its
state unchanged and emits nothing (the functions are total, so no panic
is possible).  One conjunct per collector, including the legacy one. -/
theorem collect_malformed_json_no_update :
    (∀ (c : EmailCycleCollector) net now r,
      net (mkApiRequest c.apiURL "/stats/email_cycle" c.apiKey) = Except.ok r →
      parseJson r.body = none → c.Collect net now = (c, []))
    ∧ (∀ (c : EmailBouncesCollector) net r,
      net (mkApiRequest c.apiURL "/stats/email_bounces" c.apiKey) = Except.ok r →
      parseJson r.body = none → c.Collect net = (c, []))
    ∧ (∀ (c : EmailHistoryCollector) net r,
      net (mkApiRequest c.apiURL "/stats/email_history" c.apiKey) = Except.ok r →
      parseJson r.body = none → c.Collect net = (c, []))
    ∧ (∀ (c : EmailSpamCollector) net r,
      net (mkApiRequest c.apiURL "/stats/email_spam" c.apiKey) = Except.ok r →
      parseJson r.body = none → c.Collect net = (c, []))
    ∧ (∀ (c : EmailUnsubsCollector) net r,
      net (mkApiRequest c.apiURL "/stats/email_unsubs" c.apiKey) = Except.ok r →
      parseJson r.body = none → c.Collect net = (c, []))
    ∧ (∀ (c : ApiCollector) net now r,
      net (mkApiRequest c.apiURL "/stats/email_cycle" c.apiKey) = Except.ok r →
      parseJson r.body = none → c.Collect net now = (c, [])) := by
  refine ⟨?_, ?_, ?_, ?_, ?_, ?_⟩
  · intro c net now r hnet hbad
    simp [EmailCycleCollector.Collect, doPostRequest_fst, hnet, Except.map,
      jsonUnmarshalCycle, hbad]
  · intro c net r hnet hbad
    simp [EmailBouncesCollector.Collect, doPostRequest_fst, hnet, Except.map,
      jsonUnmarshalBounces, hbad]
  · intro c net r hnet hbad
    simp [EmailHistoryCollector.Collect, doPostRequest_fst, hnet, Except.map,
      jsonUnmarshalHistory, hbad]
  · intro c net r hnet hbad
    simp [EmailSpamCollector.Collect, doPostRequest_fst, hnet, Except.map,
      jsonUnmarshalSpam, hbad]
  · intro c net r hnet hbad
    simp [EmailUnsubsCollector.Collect, doPostRequest_fst, hnet, Except.map,
      jsonUnmarshalUnsubs, hbad]
  · intro c net now r hnet hbad
    simp [ApiCollector.Collect, ApiCollector.collectEmailCycleMetrics, hnet,
      jsonUnmarshalCycle, hbad]

/-- Witness for C4: the one-character body `\x7b` is malformed JSON and
every freshly built collector survives it untouched. -/
theorem collect_malformed_json_no_update_witness :
    parseJson "\x7b" = none
    ∧ (NewEmailCycleCollector "u" "k" false).Collect (netWith "\x7b") 0
        = (NewEmailCycleCollector "u" "k" false, [])
    ∧ (NewEmailBouncesCollector "u" "k" false).Collect (netWith "\x7b")
        = (NewEmailBouncesCollector "u" "k" false, [])
    ∧ (NewEmailHistoryCollector "u" "k" false).Collect (netWith "\x7b")
        = (NewEmailHistoryCollector "u" "k" false, [])
    ∧ (NewEmailSpamCollector "u" "k" false).Collect (netWith "\x7b")
        = (NewEmailSpamCollector "u" "k" false, [])
    ∧ (NewEmailUnsubsCollector "u" "k" false).Collect (netWith "\x7b")
        = (NewEmailUnsubsCollector "u" "k" false, [])
    ∧ (NewApiCollector "u" "k" false "email_cycle").Collect (netWith "\x7b") 0
        = (NewApiCollector "u" "k" false "email_cycle", []) :=
  ⟨rfl,
   collect_malformed_json_no_update.1 (NewEmailCycleCollector "u" "k" false)
     (netWith "\x7b") 0 ⟨200, "\x7b"⟩ rfl rfl,
   collect_malformed_json_no_update.2.1 (NewEmailBouncesCollector "u" "k" false)
     (netWith "\x7b") ⟨200, "\x7b"⟩ rfl rfl,
   collect_malformed_json_no_update.2.2.1 (NewEmailHistoryCollector "u" "k" false)
     (netWith "\x7b") ⟨200, "\x7b"⟩ rfl rfl,
   collect_malformed_json_no_update.2.2.2.1 (NewEmailSpamCollector "u" "k" false)
     (netWith "\x7b") ⟨200, "\x7b"⟩ rfl rfl,
   collect_malformed_json_no_update.2.2.2.2.1 (NewEmailUnsubsCollector "u" "k" false)
     (netWith "\x7b") ⟨200, "\x7b"⟩ rfl rfl,
   collect_malformed_json_no_update.2.2.2.2.2 (NewApiCollector "u" "k" false "email_cycle")
     (netWith "\x7b") 0 ⟨200, "\x7b"⟩ rfl rfl⟩

/-- Claim C10: when the history scrape exits early — the fetch failed, or
`json.Unmarshal` failed — the labeled gauge state is exactly the state
left by the last successful scrape: the reset only happens after a
successful parse, so nothing is cleared or modified and nothing is
emitted. -/
theorem history_failed_scrape_keeps_labels :
    (∀ (c : EmailHistoryCollector) net err,
      net (mkApiRequest c.apiURL "/stats/email_history" c.apiKey) = Except.error err →
      c.Collect net = (c, []))
    ∧ (∀ (c : EmailHistoryCollector) net r,
      net (mkApiRequest c.apiURL "/stats/email_history" c.apiKey) = Except.ok r →
      jsonUnmarshalHistory r.body = Except.error () →
      c.Collect net = (c, [])) := by
  constructor
  · intro c net err hnet
    simp [EmailHistoryCollector.Collect, doPostRequest_fst, hnet, Except.map]
  · intro c net r hnet hbad
    simp [EmailHistoryCollector.Collect, doPostRequest_fst, hnet, Except.map, hbad]

/-- Witness for C10: a history collector already holding the label `a@x`
keeps it both under a transport failure and under an unparseable body. -/
theorem history_failed_scrape_keeps_labels_witness :
    netFail (mkApiRequest "u" "/stats/email_history" "k") = Except.error ()
    ∧ jsonUnmarshalHistory "nope" = Except.error ()
    ∧ ({ NewEmailHistoryCollector "u" "k" false with used := [("a@x", 407)] }).Collect netFail
        = ({ NewEmailHistoryCollector "u" "k" false with used := [("a@x", 407)] }, [])
    ∧ ({ NewEmailHistoryCollector "u" "k" false with used := [("a@x", 407)] }).Collect (netWith "nope")
        = ({ NewEmailHistoryCollector "u" "k" false with used := [("a@x", 407)] }, []) :=
  ⟨rfl, rfl,
   history_failed_scrape_keeps_labels.1
     { NewEmailHistoryCollector "u" "k" false with used := [("a@x", 407)] } netFail () rfl,
   history_failed_scrape_keeps_labels.2
     { NewEmailHistoryCollector "u" "k" false with used := [("a@x", 407)] } (netWith "nope")
     ⟨200, "nope"⟩ rfl rfl⟩

/-- A well-formed cycle response whose `cycle_end` (2020-01-01 00:00:00
UTC, epoch second 1577836800) lies in the past of the scrape below. -/
def cyclePastBody : String :=
  "\x7b\"request_id\":\"r1\",\"data\":\x7b\"cycle_start\":\"2019-12-01 00:00:00+00:00\"," ++
  "\"cycle_end\":\"2020-01-01 00:00:00+00:00\",\"cycle_used\":522," ++
  "\"cycle_remaining\":478,\"cycle_max\":1000\x7d\x7d"

/-- Claim C1 is false on the current cycle collector: scraping one second
after `cycle_end` stores `-1` in the `remaining_seconds` gauge — the
claimed `max(0, cycle_end - now)` would be `0`, and the claimed
invariant `≥ 0` fails.  `internal/emailcycle.go` computes
`time.Until(endTime).Seconds()` with no clamp. -/
theorem cycle_remaining_seconds_negative_counterexample :
    ((NewEmailCycleCollector "u" "k" false).Collect (netWith cyclePastBody)
        1577836801).1.remainingSeconds = -1
    ∧ ((NewEmailCycleCollector "u" "k" false).Collect (netWith cyclePastBody)
        1577836801).1.remainingSeconds < 0 := by
  have hum : jsonUnmarshalCycle cyclePastBody
      = Except.ok ⟨"r1", ⟨"2019-12-01 00:00:00+00:00", "2020-01-01 00:00:00+00:00",
        522, 478, 1000⟩⟩ := by rfl
  have ht : parseTimeCycle "2020-01-01 00:00:00+00:00" = some 1577836800 := by rfl
  simp only [EmailCycleCollector.Collect, doPostRequest_fst, netWith, Except.map, hum, ht]
  norm_num

/-- Claim C1 (amended): when the fetch, the JSON decode and the
`cycle_end` parse all succeed, the current `EmailCycleCollector` sets
`remaining_seconds` to the unclamped signed difference
`cycle_end - now` — negative whenever `cycle_end` is past — while the
`max(0, ...)` clamp of the claim exists only in the legacy
`ApiCollector.collectEmailCycleMetrics`. -/
theorem cycle_remaining_seconds_formula
    (c : EmailCycleCollector) (a : ApiCollector)
    (net netA : HttpRequest → Except Unit HttpResponse) (now : ℚ)
    (r rA : HttpResponse) (resp respA : EmailCycleResponse) (tEnd tEndA : ℤ)
    (hnet : net (mkApiRequest c.apiURL "/stats/email_cycle" c.apiKey) = Except.ok r)
    (hum : jsonUnmarshalCycle r.body = Except.ok resp)
    (ht : parseTimeCycle resp.data.cycleEnd = some tEnd)
    (hnetA : netA (mkApiRequest a.apiURL "/stats/email_cycle" a.apiKey) = Except.ok rA)
    (humA : jsonUnmarshalCycle rA.body = Except.ok respA)
    (htA : parseTimeCycle respA.data.cycleEnd = some tEndA) :
    (c.Collect net now).1.remainingSeconds = (tEnd : ℚ) - now
    ∧ (a.collectEmailCycleMetrics netA now).1.remainingSeconds = max 0 ((tEndA : ℚ) - now) := by
  constructor
  · simp [EmailCycleCollector.Collect, doPostRequest_fst, hnet, Except.map, hum, ht]
  · simp only [ApiCollector.collectEmailCycleMetrics, hnetA, humA, htA]
    split_ifs with h
    · exact (max_eq_left h.le).symm
    · exact (max_eq_right (not_lt.mp h)).symm

/-- Witness for the amended C1 at the concrete past-cycle response:
the current collector stores `-1`, the legacy collector stores `0`. -/
theorem cycle_remaining_seconds_formula_witness :
    netWith cyclePastBody (mkApiRequest "u" "/stats/email_cycle" "k")
        = Except.ok ⟨200, cyclePastBody⟩
    ∧ (∃ resp, jsonUnmarshalCycle cyclePastBody = Except.ok resp
        ∧ parseTimeCycle resp.data.cycleEnd = some 1577836800)
    ∧ ((NewEmailCycleCollector "u" "k" false).Collect (netWith cyclePastBody)
        1577836801).1.remainingSeconds = (1577836800 : ℚ) - 1577836801
    ∧ ((NewApiCollector "u" "k" false "email_cycle").collectEmailCycleMetrics
        (netWith cyclePastBody) 1577836801).1.remainingSeconds
        = max 0 ((1577836800 : ℚ) - 1577836801) := by
  refine ⟨rfl, ⟨⟨"r1", ⟨"2019-12-01 00:00:00+00:00", "2020-01-01 00:00:00+00:00",
      522, 478, 1000⟩⟩, rfl, rfl⟩, ?_, ?_⟩
  · exact (cycle_remaining_seconds_formula (NewEmailCycleCollector "u" "k" false)
      (NewApiCollector "u" "k" false "email_cycle") (netWith cyclePastBody)
      (netWith cyclePastBody) 1577836801 ⟨200, cyclePastBody⟩ ⟨200, cyclePastBody⟩
      ⟨"r1", ⟨"2019-12-01 00:00:00+00:00", "2020-01-01 00:00:00+00:00", 522, 478, 1000⟩⟩
      ⟨"r1", ⟨"2019-12-01 00:00:00+00:00", "2020-01-01 00:00:00+00:00", 522, 478, 1000⟩⟩
      1577836800 1577836800 rfl rfl rfl rfl rfl rfl).1
  · exact (cycle_remaining_seconds_formula (NewEmailCycleCollector "u" "k" false)
      (NewApiCollector "u" "k" false "email_cycle") (netWith cyclePastBody)
      (netWith cyclePastBody) 1577836801 ⟨200, cyclePastBody⟩ ⟨200, cyclePastBody⟩
      ⟨"r1", ⟨"2019-12-01 00:00:00+00:00", "2020-01-01 00:00:00+00:00", 522, 478, 1000⟩⟩
      ⟨"r1", ⟨"2019-12-01 00:00:00+00:00", "2020-01-01 00:00:00+00:00", 522, 478, 1000⟩⟩
      1577836800 1577836800 rfl rfl rfl rfl rfl rfl).2

/-- Claim C7: when the response decodes but `cycle_end` does not parse in
the fixed layout, only the `remaining_seconds` gauge is skipped — it
keeps its prior value while `used`, `remaining` and `max` are updated to
the response's values.  This holds for the stored gauge state of both the
current collector and the legacy one (the legacy version additionally
emits nothing in that case, which the stored values are unaffected by). -/
theorem cycle_bad_timestamp_skips_only_remaining_seconds
    (c : EmailCycleCollector) (a : ApiCollector)
    (net netA : HttpRequest → Except Unit HttpResponse) (now : ℚ)
    (r rA : HttpResponse) (resp respA : EmailCycleResponse)
    (hnet : net (mkApiRequest c.apiURL "/stats/email_cycle" c.apiKey) = Except.ok r)
    (hum : jsonUnmarshalCycle r.body = Except.ok resp)
    (ht : parseTimeCycle resp.data.cycleEnd = none)
    (hnetA : netA (mkApiRequest a.apiURL "/stats/email_cycle" a.apiKey) = Except.ok rA)
    (humA : jsonUnmarshalCycle rA.body = Except.ok respA)
    (htA : parseTimeCycle respA.data.cycleEnd = none) :
    ((c.Collect net now).1.remainingSeconds = c.remainingSeconds
      ∧ (c.Collect net now).1.used = resp.data.cycleUsed
      ∧ (c.Collect net now).1.remaining = resp.data.cycleRemaining
      ∧ (c.Collect net now).1.max = resp.data.cycleMax)
    ∧ ((a.collectEmailCycleMetrics netA now).1.remainingSeconds = a.remainingSeconds
      ∧ (a.collectEmailCycleMetrics netA now).1.used = respA.data.cycleUsed
      ∧ (a.collectEmailCycleMetrics netA now).1.remaining = respA.data.cycleRemaining
      ∧ (a.collectEmailCycleMetrics netA now).1.max = respA.data.cycleMax) := by
  constructor
  · refine ⟨?_, ?_, ?_, ?_⟩ <;>
      simp [EmailCycleCollector.Collect, doPostRequest_fst, hnet, Except.map, hum, ht]
  · refine ⟨?_, ?_, ?_, ?_⟩ <;>
      simp [ApiCollector.collectEmailCycleMetrics, hnetA, humA, htA]

/-- A cycle response whose `cycle_end` is not a timestamp. -/
def cycleBadEndBody : String :=
  "\x7b\"data\":\x7b\"cycle_end\":\"nope\",\"cycle_used\":1,\"cycle_remaining\":2,\"cycle_max\":3\x7d\x7d"

/-- Witness for C7 at the concrete body with `cycle_end = "nope"`: both
collectors, seeded with `remaining_seconds = 99`, keep `99` there and
update the three counters to 1, 2, 3. -/
theorem cycle_bad_timestamp_skips_only_remaining_seconds_witness :
    jsonUnmarshalCycle cycleBadEndBody
        = Except.ok ⟨"", ⟨"", "nope", 1, 2, 3⟩⟩
    ∧ parseTimeCycle "nope" = none
    ∧ (({ NewEmailCycleCollector "u" "k" false with remainingSeconds := 99 }).Collect
        (netWith cycleBadEndBody) 0).1.remainingSeconds = 99
    ∧ (({ NewEmailCycleCollector "u" "k" false with remainingSeconds := 99 }).Collect
        (netWith cycleBadEndBody) 0).1.used = 1
    ∧ (({ NewApiCollector "u" "k" false "email_cycle" with remainingSeconds := 99
        }).collectEmailCycleMetrics (netWith cycleBadEndBody) 0).1.remainingSeconds = 99
    ∧ (({ NewApiCollector "u" "k" false "email_cycle" with remainingSeconds := 99
        }).collectEmailCycleMetrics (netWith cycleBadEndBody) 0).1.used = 1 := by
  have h := cycle_bad_timestamp_skips_only_remaining_seconds
    { NewEmailCycleCollector "u" "k" false with remainingSeconds := 99 }
    { NewApiCollector "u" "k" false "email_cycle" with remainingSeconds := 99 }
    (netWith cycleBadEndBody) (netWith cycleBadEndBody) 0
    ⟨200, cycleBadEndBody⟩ ⟨200, cycleBadEndBody⟩
    ⟨"", ⟨"", "nope", 1, 2, 3⟩⟩ ⟨"", ⟨"", "nope", 1, 2, 3⟩⟩
    rfl rfl rfl rfl rfl rfl
  exact ⟨rfl, rfl, h.1.1, h.1.2.1, h.2.1, h.2.2.1⟩

/-- Claim C2: on a response that fetches, decodes into the endpoint
schema and whose percentage string parses, `Collect` sets every gauge to
exactly the corresponding field value (the percentage gauge to the parsed
float) and emits precisely those values.  Stated for the two cited
collectors, bounces and spam. -/
theorem collect_valid_json_sets_all_gauges :
    (∀ (c : EmailBouncesCollector) net r resp p,
      net (mkApiRequest c.apiURL "/stats/email_bounces" c.apiKey) = Except.ok r →
      jsonUnmarshalBounces r.body = Except.ok resp →
      parseFloatGo resp.data.bouncePercent = some p →
      (c.Collect net).1.emails = resp.data.emails
      ∧ (c.Collect net).1.rejects = resp.data.rejects
      ∧ (c.Collect net).1.softBounces = resp.data.softBounces
      ∧ (c.Collect net).1.hardBounces = resp.data.hardBounces
      ∧ (c.Collect net).1.bouncePercent = p
      ∧ (c.Collect net).2 =
        [(c.ns ++ "_emails", resp.data.emails), (c.ns ++ "_rejects", resp.data.rejects),
         (c.ns ++ "_softbounces", resp.data.softBounces),
         (c.ns ++ "_hardbounces", resp.data.hardBounces),
         (c.ns ++ "_bounce_percent", p)])
    ∧ (∀ (c : EmailSpamCollector) net r resp p,
      net (mkApiRequest c.apiURL "/stats/email_spam" c.apiKey) = Except.ok r →
      jsonUnmarshalSpam r.body = Except.ok resp →
      parseFloatGo resp.data.spamPercent = some p →
      (c.Collect net).1.emails = resp.data.emails
      ∧ (c.Collect net).1.rejects = resp.data.rejects
      ∧ (c.Collect net).1.spams = resp.data.spams
      ∧ (c.Collect net).1.spamPercent = p
      ∧ (c.Collect net).2 =
        [(c.ns ++ "_emails", resp.data.emails), (c.ns ++ "_rejects", resp.data.rejects),
         (c.ns ++ "_spams", resp.data.spams), (c.ns ++ "_spam_percent", p)]) := by
  constructor
  · intro c net r resp p hnet hum hp
    refine ⟨?_, ?_, ?_, ?_, ?_, ?_⟩ <;>
      simp [EmailBouncesCollector.Collect, doPostRequest_fst, hnet, Except.map, hum, hp]
  · intro c net r resp p hnet hum hp
    refine ⟨?_, ?_, ?_, ?_, ?_⟩ <;>
      simp [EmailSpamCollector.Collect, doPostRequest_fst, hnet, Except.map, hum, hp]

/-- The bounces example body of the spec and repository README. -/
def bouncesExampleBody : String :=
  "\x7b\"request_id\":\"x\",\"data\":\x7b\"emails\":414,\"rejects\":108,\"softbounces\":0," ++
  "\"hardbounces\":0,\"bounce_percent\":\"0\"\x7d\x7d"

/-- A spam example body. -/
def spamExampleBody : String :=
  "\x7b\"data\":\x7b\"emails\":9,\"rejects\":2,\"spams\":3,\"spam_percent\":\"1.5\"\x7d\x7d"

/-- Witness for C2 on the spec's end-to-end example: the emitted bounces
gauges are emails 414, rejects 108, softbounces 0, hardbounces 0,
bounce_percent 0; and the spam collector transports its fields likewise
(`"1.5"` parsing to the rational 3/2). -/
theorem collect_valid_json_sets_all_gauges_witness :
    jsonUnmarshalBounces bouncesExampleBody
        = Except.ok ⟨"x", ⟨414, 108, 0, 0, "0"⟩⟩
    ∧ parseFloatGo "0" = some 0
    ∧ ((NewEmailBouncesCollector "u" "k" false).Collect (netWith bouncesExampleBody)).2 =
      [("smtp2go_email_bounces_emails", 414), ("smtp2go_email_bounces_rejects", 108),
       ("smtp2go_email_bounces_softbounces", 0), ("smtp2go_email_bounces_hardbounces", 0),
       ("smtp2go_email_bounces_bounce_percent", 0)]
    ∧ jsonUnmarshalSpam spamExampleBody
        = Except.ok ⟨"", ⟨9, 2, 3, "1.5"⟩⟩
    ∧ parseFloatGo "1.5" = some (mkRat 3 2)
    ∧ ((NewEmailSpamCollector "u" "k" false).Collect (netWith spamExampleBody)).1.spamPercent
        = mkRat 3 2 := by
  have hb := collect_valid_json_sets_all_gauges.1 (NewEmailBouncesCollector "u" "k" false)
    (netWith bouncesExampleBody) ⟨200, bouncesExampleBody⟩ ⟨"x", ⟨414, 108, 0, 0, "0"⟩⟩ 0
    rfl rfl rfl
  have hs := collect_valid_json_sets_all_gauges.2 (NewEmailSpamCollector "u" "k" false)
    (netWith spamExampleBody) ⟨200, spamExampleBody⟩ ⟨"", ⟨9, 2, 3, "1.5"⟩⟩ (mkRat 3 2)
    rfl rfl rfl
  refine ⟨rfl, rfl, ?_, rfl, rfl, ?_⟩
  · exact hb.2.2.2.2.2
  · exact hs.2.2.2.1

/-- Claim C5: when the response decodes but the percentage string fails
`strconv.ParseFloat`, only the percentage gauge keeps its prior value;
every sibling numeric gauge of the same collector is still updated to the
response's values.  Stated for the two cited collectors, bounces and
unsubscribes. -/
theorem percent_parse_failure_skips_only_percent :
    (∀ (c : EmailBouncesCollector) net r resp,
      net (mkApiRequest c.apiURL "/stats/email_bounces" c.apiKey) = Except.ok r →
      jsonUnmarshalBounces r.body = Except.ok resp →
      parseFloatGo resp.data.bouncePercent = none →
      (c.Collect net).1.bouncePercent = c.bouncePercent
      ∧ (c.Collect net).1.emails = resp.data.emails
      ∧ (c.Collect net).1.rejects = resp.data.rejects
      ∧ (c.Collect net).1.softBounces = resp.data.softBounces
      ∧ (c.Collect net).1.hardBounces = resp.data.hardBounces)
    ∧ (∀ (c : EmailUnsubsCollector) net r resp,
      net (mkApiRequest c.apiURL "/stats/email_unsubs" c.apiKey) = Except.ok r →
      jsonUnmarshalUnsubs r.body = Except.ok resp →
      parseFloatGo resp.data.unsubscribePercent = none →
      (c.Collect net).1.unsubscribePercent = c.unsubscribePercent
      ∧ (c.Collect net).1.emails = resp.data.emails
      ∧ (c.Collect net).1.rejects = resp.data.rejects
      ∧ (c.Collect net).1.unsubscribes = resp.data.unsubscribes) := by
  constructor
  · intro c net r resp hnet hum hp
    refine ⟨?_, ?_, ?_, ?_, ?_⟩ <;>
      simp [EmailBouncesCollector.Collect, doPostRequest_fst, hnet, Except.map, hum, hp]
  · intro c net r resp hnet hum hp
    refine ⟨?_, ?_, ?_, ?_⟩ <;>
      simp [EmailUnsubsCollector.Collect, doPostRequest_fst, hnet, Except.map, hum, hp]

/-- A bounces body whose percent string is not a number. -/
def bouncesBadPercentBody : String :=
  "\x7b\"data\":\x7b\"emails\":3,\"rejects\":1,\"softbounces\":2,\"hardbounces\":4," ++
  "\"bounce_percent\":\"zz\"\x7d\x7d"

/-- An unsubs body whose percent string is not a number. -/
def unsubsBadPercentBody : String :=
  "\x7b\"data\":\x7b\"emails\":6,\"rejects\":5,\"unsubscribes\":8,\"unsubscribe_percent\":\"\"\x7d\x7d"

/-- Witness for C5: with percent strings `"zz"` and `""`, collectors
seeded with percentage `7` keep `7` there while the numeric gauges take
the response's values. -/
theorem percent_parse_failure_skips_only_percent_witness :
    jsonUnmarshalBounces bouncesBadPercentBody
        = Except.ok ⟨"", ⟨3, 1, 2, 4, "zz"⟩⟩
    ∧ parseFloatGo "zz" = none
    ∧ (({ NewEmailBouncesCollector "u" "k" false with bouncePercent := 7 }).Collect
        (netWith bouncesBadPercentBody)).1.bouncePercent = 7
    ∧ (({ NewEmailBouncesCollector "u" "k" false with bouncePercent := 7 }).Collect
        (netWith bouncesBadPercentBody)).1.emails = 3
    ∧ jsonUnmarshalUnsubs unsubsBadPercentBody
        = Except.ok ⟨"", ⟨6, 5, 8, ""⟩⟩
    ∧ parseFloatGo "" = none
    ∧ (({ NewEmailUnsubsCollector "u" "k" false with unsubscribePercent := 7 }).Collect
        (netWith unsubsBadPercentBody)).1.unsubscribePercent = 7
    ∧ (({ NewEmailUnsubsCollector "u" "k" false with unsubscribePercent := 7 }).Collect
        (netWith unsubsBadPercentBody)).1.unsubscribes = 8 := by
  have hb := percent_parse_failure_skips_only_percent.1
    { NewEmailBouncesCollector "u" "k" false with bouncePercent := 7 }
    (netWith bouncesBadPercentBody) ⟨200, bouncesBadPercentBody⟩
    ⟨"", ⟨3, 1, 2, 4, "zz"⟩⟩ rfl rfl rfl
  have hu := percent_parse_failure_skips_only_percent.2
    { NewEmailUnsubsCollector "u" "k" false with unsubscribePercent := 7 }
    (netWith unsubsBadPercentBody) ⟨200, unsubsBadPercentBody⟩
    ⟨"", ⟨6, 5, 8, ""⟩⟩ rfl rfl rfl
  exact ⟨rfl, rfl, hb.1, hb.2.1, rfl, rfl, hu.1, hu.2.2.2⟩

/-- A bounces collector that has already stored `emails = 5`. -/
def bouncesPrior : EmailBouncesCollector :=
  { NewEmailBouncesCollector "u" "k" false with emails := 5 }

/-- Claim C6 is false as stated: the well-formed body `\x7b\x7d` does not match
the schema (no `data` object), yet `json.Unmarshal` succeeds with the
zero value, so the scrape overwrites the numeric gauges with `0` instead
of keeping their prior values — here `emails` drops from 5 to 0. -/
theorem schema_mismatch_zeroes_gauges_counterexample :
    (bouncesPrior.Collect (netWith "\x7b\x7d")).1.emails = 0
    ∧ bouncesPrior.emails = 5
    ∧ (bouncesPrior.Collect (netWith "\x7b\x7d")).1.emails ≠ bouncesPrior.emails := by
  refine ⟨rfl, rfl, ?_⟩
  intro h
  have h0 : (0 : ℚ) = 5 := h
  norm_num at h0

/-- Claim C6 (amended): well-formed JSON yields no fresh data only when
the decode actually fails — a value of the wrong JSON type for a schema
field (e.g. `data` not an object), which makes `json.Unmarshal` return an
error and `Collect` leave every gauge at its prior value and emit
nothing.  Well-formed JSON that merely omits fields (such as an envelope
missing the `data` object) decodes successfully to zero values and does
refresh the gauges, as the counterexample shows.  Stated for the two
cited collectors, bounces and cycle. -/
theorem schema_type_error_no_update :
    (∀ (c : EmailBouncesCollector) net r j,
      net (mkApiRequest c.apiURL "/stats/email_bounces" c.apiKey) = Except.ok r →
      parseJson r.body = some j →
      jsonUnmarshalBounces r.body = Except.error () →
      c.Collect net = (c, []))
    ∧ (∀ (c : EmailCycleCollector) net now r j,
      net (mkApiRequest c.apiURL "/stats/email_cycle" c.apiKey) = Except.ok r →
      parseJson r.body = some j →
      jsonUnmarshalCycle r.body = Except.error () →
      c.Collect net now = (c, [])) := by
  constructor
  · intro c net r j hnet hJ hum
    simp [EmailBouncesCollector.Collect, doPostRequest_fst, hnet, Except.map, hum]
  · intro c net now r j hnet hJ hum
    simp [EmailCycleCollector.Collect, doPostRequest_fst, hnet, Except.map, hum]

/-- Witness for the amended C6 at the well-formed body with `data` of the
wrong type: both collectors keep their state and emit nothing. -/
theorem schema_type_error_no_update_witness :
    parseJson "\x7b\"data\":5\x7d" = some (Json.obj [("data", Json.num 5)])
    ∧ jsonUnmarshalBounces "\x7b\"data\":5\x7d" = Except.error ()
    ∧ jsonUnmarshalCycle "\x7b\"data\":5\x7d" = Except.error ()
    ∧ (NewEmailBouncesCollector "u" "k" false).Collect (netWith "\x7b\"data\":5\x7d")
        = (NewEmailBouncesCollector "u" "k" false, [])
    ∧ (NewEmailCycleCollector "u" "k" false).Collect (netWith "\x7b\"data\":5\x7d") 0
        = (NewEmailCycleCollector "u" "k" false, []) :=
  ⟨rfl, rfl, rfl,
   schema_type_error_no_update.1 (NewEmailBouncesCollector "u" "k" false)
     (netWith "\x7b\"data\":5\x7d") ⟨200, "\x7b\"data\":5\x7d"⟩
     (Json.obj [("data", Json.num 5)]) rfl rfl rfl,
   schema_type_error_no_update.2 (NewEmailCycleCollector "u" "k" false)
     (netWith "\x7b\"data\":5\x7d") 0 ⟨200, "\x7b\"data\":5\x7d"⟩
     (Json.obj [("data", Json.num 5)]) rfl rfl rfl⟩

/-- `keys` on an empty family. -/
theorem keys_nil : keys [] = [] := rfl

/-- `keys` on a cons cell. -/
theorem keys_cons (a : String) (b : ℚ) (m : GaugeVecState) :
    keys ((a, b) :: m) = a :: keys m := rfl

/-- Setting a child only adds its label value to the family's label set. -/
theorem mem_keys_setAddr (m : GaugeVecState) (ka kb : String) (v : ℚ) :
    kb ∈ keys (setAddr m ka v) ↔ kb = ka ∨ kb ∈ keys m := by
  induction m with
  | nil => simp [setAddr, keys_nil, keys_cons]
  | cons p rest ih =>
    cases p with
    | mk k0 v0 =>
      simp only [setAddr]
      by_cases h : k0 = ka
      · subst h
        simp [keys_cons]
      · simp only [if_neg h, keys_cons, List.mem_cons, ih]
        tauto

/-- Label membership after the per-entry loop, for any of the nine
families (given as the projection `proj` that `histSetEntry` updates by a
`setAddr` on the entry's address): a label is present exactly when some
entry carries it or it was present before the loop. -/
theorem mem_keys_hist_fold (proj : EmailHistoryCollector → GaugeVecState)
    (hstep : ∀ g e, ∃ v, proj (histSetEntry g e) = setAddr (proj g) e.emailAddress v)
    (entries : List EmailHistoryEntry) (g : EmailHistoryCollector) (addr : String) :
    (addr ∈ keys (proj (entries.foldl histSetEntry g)) ↔
      addr ∈ entries.map (fun e => e.emailAddress) ∨ addr ∈ keys (proj g)) := by
  induction entries generalizing g with
  | nil => simp
  | cons e es ih =>
    obtain ⟨v, hv⟩ := hstep g e
    simp only [List.foldl_cons, List.map_cons, List.mem_cons]
    rw [ih (histSetEntry g e), hv, mem_keys_setAddr]
    tauto

/-- Claim C3: after a history `Collect` whose fetch and parse succeed,
the label set of every one of the nine labeled families is exactly the
set of `email_address` values of the response's history list — labels
from earlier scrapes that are absent from this response are gone, with no
merging of old and new label sets. -/
theorem history_label_set_matches_response
    (c : EmailHistoryCollector) (net : HttpRequest → Except Unit HttpResponse)
    (r : HttpResponse) (resp : EmailHistoryResponse)
    (hnet : net (mkApiRequest c.apiURL "/stats/email_history" c.apiKey) = Except.ok r)
    (hum : jsonUnmarshalHistory r.body = Except.ok resp) (addr : String) :
    ((addr ∈ keys (c.Collect net).1.used
        ↔ addr ∈ resp.data.history.map (fun e => e.emailAddress))
      ∧ (addr ∈ keys (c.Collect net).1.bytecount
        ↔ addr ∈ resp.data.history.map (fun e => e.emailAddress))
      ∧ (addr ∈ keys (c.Collect net).1.avgsize
        ↔ addr ∈ resp.data.history.map (fun e => e.emailAddress))
      ∧ (addr ∈ keys (c.Collect net).1.bounces
        ↔ addr ∈ resp.data.history.map (fun e => e.emailAddress))
      ∧ (addr ∈ keys (c.Collect net).1.clicks
        ↔ addr ∈ resp.data.history.map (fun e => e.emailAddress))
      ∧ (addr ∈ keys (c.Collect net).1.opens
        ↔ addr ∈ resp.data.history.map (fun e => e.emailAddress))
      ∧ (addr ∈ keys (c.Collect net).1.rejects
        ↔ addr ∈ resp.data.history.map (fun e => e.emailAddress))
      ∧ (addr ∈ keys (c.Collect net).1.spam
        ↔ addr ∈ resp.data.history.map (fun e => e.emailAddress))
      ∧ (addr ∈ keys (c.Collect net).1.unsubscribes
        ↔ addr ∈ resp.data.history.map (fun e => e.emailAddress))) := by
  have hstate : (c.Collect net).1 = resp.data.history.foldl histSetEntry (histReset c) := by
    simp [EmailHistoryCollector.Collect, doPostRequest_fst, hnet, Except.map, hum]
  rw [hstate]
  refine ⟨?_, ?_, ?_, ?_, ?_, ?_, ?_, ?_, ?_⟩
  · rw [mem_keys_hist_fold (fun g => g.used) (fun g e => ⟨e.used, rfl⟩)]
    simp [histReset, keys_nil]
  · rw [mem_keys_hist_fold (fun g => g.bytecount) (fun g e => ⟨e.byteCount, rfl⟩)]
    simp [histReset, keys_nil]
  · rw [mem_keys_hist_fold (fun g => g.avgsize) (fun g e => ⟨e.avgSize, rfl⟩)]
    simp [histReset, keys_nil]
  · rw [mem_keys_hist_fold (fun g => g.bounces) (fun g e => ⟨e.bounces, rfl⟩)]
    simp [histReset, keys_nil]
  · rw [mem_keys_hist_fold (fun g => g.clicks) (fun g e => ⟨e.clicks, rfl⟩)]
    simp [histReset, keys_nil]
  · rw [mem_keys_hist_fold (fun g => g.opens) (fun g e => ⟨e.opens, rfl⟩)]
    simp [histReset, keys_nil]
  · rw [mem_keys_hist_fold (fun g => g.rejects) (fun g e => ⟨e.rejects, rfl⟩)]
    simp [histReset, keys_nil]
  · rw [mem_keys_hist_fold (fun g => g.spam) (fun g e => ⟨e.spam, rfl⟩)]
    simp [histReset, keys_nil]
  · rw [mem_keys_hist_fold (fun g => g.unsubscribes) (fun g e => ⟨e.unsubscribes, rfl⟩)]
    simp [histReset, keys_nil]

/-- A history body listing exactly the addresses `a@x` and `b@x`. -/
def historyExampleBody : String :=
  "\x7b\"data\":\x7b\"history\":[\x7b\"email_address\":\"a@x\",\"used\":407\x7d," ++
  "\x7b\"email_address\":\"b@x\",\"used\":7\x7d],\"count\":2\x7d\x7d"

def historyEntryA : EmailHistoryEntry := ⟨407, 0, 0, "a@x", 0, 0, 0, 0, 0, 0⟩

def historyEntryB : EmailHistoryEntry := ⟨7, 0, 0, "b@x", 0, 0, 0, 0, 0, 0⟩

/-- A history collector still holding the stale label `old@x` from an
earlier scrape. -/
def historyPrior : EmailHistoryCollector :=
  { NewEmailHistoryCollector "u" "k" false with
    used := [("old@x", 1)], spam := [("old@x", 2)] }

/-- Witness for C3: scraping the `\x7ba@x, b@x\x7d` response over a state that
still carries `old@x`, the label sets answer membership exactly as the
response's address list does — `old@x` is gone, `a@x` is present, in the
`used` family as well as in the `spam` family. -/
theorem history_label_set_matches_response_witness :
    jsonUnmarshalHistory historyExampleBody
        = Except.ok ⟨"", ⟨[historyEntryA, historyEntryB], 2⟩⟩
    ∧ ("old@x" ∈ keys (historyPrior.Collect (netWith historyExampleBody)).1.used
        ↔ "old@x" ∈ ["a@x", "b@x"])
    ∧ ("a@x" ∈ keys (historyPrior.Collect (netWith historyExampleBody)).1.used
        ↔ "a@x" ∈ ["a@x", "b@x"])
    ∧ ("old@x" ∈ keys (historyPrior.Collect (netWith historyExampleBody)).1.spam
        ↔ "old@x" ∈ ["a@x", "b@x"]) :=
  ⟨rfl,
   (history_label_set_matches_response historyPrior (netWith historyExampleBody)
     ⟨200, historyExampleBody⟩ ⟨"", ⟨[historyEntryA, historyEntryB], 2⟩⟩
     rfl rfl "old@x").1,
   (history_label_set_matches_response historyPrior (netWith historyExampleBody)
     ⟨200, historyExampleBody⟩ ⟨"", ⟨[historyEntryA, historyEntryB], 2⟩⟩
     rfl rfl "a@x").1,
   (history_label_set_matches_response historyPrior (netWith historyExampleBody)
     ⟨200, historyExampleBody⟩ ⟨"", ⟨[historyEntryA, historyEntryB], 2⟩⟩
     rfl rfl "old@x").2.2.2.2.2.2.2.1⟩
